import Mathlib

/-!
Verification development for the review-iteration workflow core of the
Java peer-code-review training system.

The embedding covers:
* `core/student_response_evaluator.py` — `evaluate_review`,
  `_process_enhanced_analysis`, `_fallback_evaluation`;
* `workflow/node.py` — `generate_code_node`, `regenerate_code_node`,
  `evaluate_code_node`, `analyze_review_node`, `_extract_requested_errors`;
* `workflow/conditions.py` — `should_regenerate_or_review`,
  `should_continue_review`;
* `utils/code_utils.py` — `get_error_count_from_state`.

External LLM calls (code generator, code evaluator, review grader) are
modelled as explicit parameters supplying the value the call would return;
a failing or malformed LLM response is a dedicated constructor of the
outcome type.  Percentages are modelled with `ℚ` (the Python values involved
are exact decimal results of small integer divisions).  Dictionary fields
written through the translation helper `t` and read back through
`get_field_value` are modelled as plain record fields: in the canonical
(English) schema `t` returns its key and `get_field_value` is dictionary
lookup with a default, so a key written as `t k` is read back by
`get_field_value d k`.
-/

/-- Modelled from the spec: `ErrorSpec` of the missing `state_schema` module
(only the fields the workflow logic reads). -/
structure ErrorSpec where
  type : String
  name : String
  deriving DecidableEq, Repr

/-- Modelled from the spec: `CodeSnippet` of the missing `state_schema`
module.  `java_errors` is the `raw_errors["java_errors"]` list. -/
structure CodeSnippet where
  code : String
  clean_code : String
  java_errors : List ErrorSpec
  expected_error_count : Nat
  deriving DecidableEq, Repr

/-- The review-analysis dictionary as produced by
`StudentResponseEvaluator._process_enhanced_analysis` /
`_fallback_evaluation` and post-processed by `analyze_review_node`.
`identified_percentage` and `original_error_count` are `Option`s because
those keys are only added by `analyze_review_node` when
`original_error_count > 0`. -/
structure Analysis where
  identified_problems : List String
  missed_problems : List String
  identified_count : Nat
  total_problems : Nat
  accuracy_percentage : ℚ
  review_sufficient : Bool
  identified_percentage : Option ℚ
  original_error_count : Option Nat
  deriving DecidableEq, Repr

/-- The raw JSON dictionary extracted from the grading LLM's response.
Each field is optional: `get_field_value`-style reads substitute a default
for an absent key, and `"review_sufficient" in analysis_data` tests
presence. -/
structure AnalysisData where
  identified_problems : Option (List String)
  missed_problems : Option (List String)
  identified_count : Option Nat
  total_problems : Option Nat
  review_sufficient : Option Bool
  deriving DecidableEq, Repr

/-- Outcome of the grading LLM call as seen by `evaluate_review`: either a
successfully extracted JSON dictionary, or any of the failure modes (no
LLM, empty response, malformed JSON, exception) that all route to
`_fallback_evaluation`. -/
inductive GraderOutcome where
  | ok (data : AnalysisData)
  | failure
  deriving DecidableEq, Repr

/-- Embedding of `StudentResponseEvaluator._fallback_evaluation`. -/
def fallback_evaluation (known_problems : List String) : Analysis :=
  { identified_problems := []
    missed_problems := known_problems
    accuracy_percentage := 0
    identified_count := 0
    total_problems := known_problems.length
    review_sufficient := false
    identified_percentage := none
    original_error_count := none }

/-- Embedding of `StudentResponseEvaluator._process_enhanced_analysis` (the non-`None`
case; the `None` case is routed to `_fallback_evaluation` by the caller). -/
def process_enhanced_analysis (analysis_data : AnalysisData)
    (known_problems : List String) (min_identified_percentage : ℚ) : Analysis :=
  let identified_count := analysis_data.identified_count.getD 0
  let total_problems := analysis_data.total_problems.getD known_problems.length
  let identified_percentage : ℚ :=
    if total_problems > 0 then
      ((identified_count : ℚ) / (total_problems : ℚ)) * 100
    else 100
  let review_sufficient :=
    match analysis_data.review_sufficient with
    | some b => b
    | none => decide (identified_percentage ≥ min_identified_percentage)
  { identified_problems := analysis_data.identified_problems.getD []
    missed_problems := analysis_data.missed_problems.getD []
    identified_count := identified_count
    total_problems := total_problems
    accuracy_percentage := identified_percentage
    review_sufficient := review_sufficient
    identified_percentage := none
    original_error_count := none }

/-- Embedding of `StudentResponseEvaluator.evaluate_review`: every failure path (missing
LLM, empty response, extraction failure, any exception) returns
`_fallback_evaluation(known_problems)`; a successful extraction is enhanced
by `_process_enhanced_analysis`. -/
def evaluate_review (outcome : GraderOutcome) (known_problems : List String)
    (min_identified_percentage : ℚ) : Analysis :=
  match outcome with
  | .ok data => process_enhanced_analysis data known_problems min_identified_percentage
  | .failure => fallback_evaluation known_problems

/-- The evaluation-result dictionary stored into `state.evaluation_result`
by `evaluate_code_node` (raw evaluator dictionary plus the keys the node
writes). -/
structure EvaluationResult where
  found_errors : List String
  missing_errors : List String
  extra_errors : List String
  valid : Bool
  original_error_count : Nat
  deriving DecidableEq, Repr

/-- Outcome of `code_evaluation.evaluate_code`: a dictionary (with
`get_field_value` defaults for absent keys) or a non-dictionary value. -/
inductive EvalOutcome where
  | ok (found_errors missing_errors extra_errors : List String)
  | notDict
  deriving DecidableEq, Repr

/-- Embedding of `ReviewAttempt` (constructed in `manager.submit_review` with
`analysis={}`; an empty dictionary is falsy, modelled as `none`). -/
structure ReviewAttempt where
  iteration_number : Nat
  student_review : String
  analysis : Option Analysis
  targeted_guidance : Option String
  deriving DecidableEq, Repr

/-- The `"java_errors"` sub-dictionary of `selected_error_categories`. -/
structure SelectedCategories where
  java_errors : List String
  deriving DecidableEq, Repr

/-- Modelled from the spec: `WorkflowState` of the missing `state_schema`
module — the session-scoped state record of §3 of the spec, with exactly
the fields the workflow nodes and conditions read or write. -/
structure WorkflowState where
  code_length : String
  difficulty_level : String
  selected_error_categories : Option SelectedCategories
  selected_specific_errors : List ErrorSpec
  domain : Option String
  code_snippet : Option CodeSnippet
  evaluation_result : Option EvaluationResult
  evaluation_attempts : Nat
  max_evaluation_attempts : Nat
  original_error_count : Nat
  code_generation_feedback : Option String
  review_history : List ReviewAttempt
  current_iteration : Nat
  max_iterations : Nat
  review_sufficient : Bool
  current_step : String
  error : Option String
  deriving DecidableEq, Repr

/-- The argument of `get_error_count_from_state`'s `state` parameter.
`generate_code_node` passes the difficulty *string* in this position, and a
plain Python string has none of the attributes the function probes with
`hasattr`, so both shapes must be representable. -/
inductive ErrCountStateArg where
  | pyStr (s : String)
  | pyState (st : WorkflowState)
  deriving Repr

/-- Lower-casing of Python `str.lower()` for the ASCII difficulty labels. -/
def str_lower (s : String) : String := String.mk (s.data.map Char.toLower)

/-- The `difficulty_map.get(str(difficulty_level).lower(), 4)` fallback at
the end of `get_error_count_from_state`. -/
def difficulty_map_get (difficulty_level : String) : Nat :=
  if str_lower difficulty_level = "easy" then 2
  else if str_lower difficulty_level = "medium" then 4
  else if str_lower difficulty_level = "hard" then 6
  else 4

/-- Embedding of `utils/code_utils.get_error_count_from_state(state, difficulty_level)`.
When the `state` argument is a plain string, every `hasattr` probe fails
and the function falls through to the difficulty map applied to the
`difficulty_level` *parameter* (default `"medium"`). -/
def get_error_count_from_state (state : ErrCountStateArg)
    (difficulty_level : String) : Nat :=
  match state with
  | .pyStr _ => difficulty_map_get difficulty_level
  | .pyState st =>
    if st.selected_specific_errors ≠ [] then
      st.selected_specific_errors.length
    else if st.original_error_count > 0 then
      st.original_error_count
    else
      match st.selected_error_categories with
      | some cats =>
        if cats.java_errors.length > 0 then max cats.java_errors.length 2
        else difficulty_map_get difficulty_level
      | none => difficulty_map_get difficulty_level

/-- Embedding of `WorkflowNodes._extract_requested_errors`: the code snippet's
`raw_errors["java_errors"]` list (every entry of the typed embedding
already carries the `type` and `name` keys the Python plumbing defaults). -/
def extract_requested_errors (state : WorkflowState) : List ErrorSpec :=
  match state.code_snippet with
  | none => []
  | some snippet => snippet.java_errors

/-- The `f"{error.get('type','').upper()} - {error.get('name','')}"`
formatting used for the default `missing_errors` list in
`evaluate_code_node`'s non-dictionary fallback. -/
def format_missing_error (e : ErrorSpec) : String :=
  e.type.toUpper ++ " - " ++ e.name

/-- Embedding of `utils/code_utils.create_regeneration_prompt`, abstracted to a string
determined by its inputs; the spec places prompt-string templating out of
scope, and no claim depends on the prompt's text, only on its storage in
`code_generation_feedback`. -/
def create_regeneration_prompt (code domain : String)
    (missing_errors found_errors : List String) : String :=
  "regenerate|" ++ code ++ "|" ++ domain ++ "|" ++
    String.intercalate ";" missing_errors ++ "|" ++
    String.intercalate ";" found_errors

/-- Embedding of `WorkflowNodes.generate_code_node`.  External effects are passed in:
`repo_errors` is what `error_repository.get_errors_for_llm` returns for the
category-mode request, `annotated`/`clean` are the two versions
`extract_both_code_versions` pulls out of the generation LLM's response,
and `pick_domain` is the random domain chosen when none is set. -/
def generate_code_node (repo_errors : List ErrorSpec)
    (annotated clean : String) (pick_domain : String)
    (state : WorkflowState) : WorkflowState :=
  -- reset for a fresh generation
  let state := { state with
    evaluation_attempts := 0
    evaluation_result := none
    code_generation_feedback := none }
  let state := { state with domain := some (state.domain.getD pick_domain) }
  if state.selected_specific_errors ≠ [] then
    -- specific-errors mode
    let selected_errors := state.selected_specific_errors
    let original_error_count := selected_errors.length
    { state with
      original_error_count := original_error_count
      code_snippet := some
        { code := annotated
          clean_code := clean
          java_errors := selected_errors
          expected_error_count := original_error_count }
      current_step := "evaluate" }
  else
    match state.selected_error_categories with
    | none => { state with error := some "no_categories" }
    | some cats =>
      if cats.java_errors = [] then { state with error := some "no_categories" }
      else
        -- NOTE: the source calls `get_error_count_from_state(difficulty_level)`,
        -- binding the difficulty string to the `state` parameter and leaving
        -- the `difficulty_level` parameter at its default `"medium"`.
        let required_error_count :=
          get_error_count_from_state (.pyStr state.difficulty_level) "medium"
        let pair :=
          if repo_errors.length < required_error_count then
            (repo_errors, repo_errors.length)
          else if repo_errors.length > required_error_count then
            (repo_errors.take required_error_count, required_error_count)
          else (repo_errors, required_error_count)
        { state with
          original_error_count := pair.2
          code_snippet := some
            { code := annotated
              clean_code := clean
              java_errors := pair.1
              expected_error_count := pair.2 }
          current_step := "evaluate" }

/-- Message stored by the `except` clause of `regenerate_code_node` when
the `NameError` on the unbound local `selected_errors` is caught (Python
renders the name in quotes; the quoting is elided here). -/
def regenerate_name_error_message : String :=
  "Error regenerating code: name selected_errors is not defined"

/-- Embedding of `WorkflowNodes.regenerate_code_node`.  When a generation LLM is
available, the body invokes it with the stored feedback prompt and then
builds `CodeSnippet(..., raw_errors={"java_errors": selected_errors})`
where `selected_errors` is an unbound local name: Python raises
`NameError`, the surrounding `except` stores the message in `state.error`,
and no state field written before the raise exists — the old snippet and
`current_step` survive unchanged.  Without an LLM the node falls back to
`generate_code_node`. -/
def regenerate_code_node (llm_available : Bool)
    (repo_errors : List ErrorSpec) (annotated clean : String)
    (pick_domain : String) (state : WorkflowState) : WorkflowState :=
  if llm_available then
    { state with error := some regenerate_name_error_message }
  else
    generate_code_node repo_errors annotated clean pick_domain state

/-- Embedding of `WorkflowNodes.evaluate_code_node`.  `evaluate_code` supplies the value
returned by the external `code_evaluation.evaluate_code(code, requested)`
call. -/
def evaluate_code_node (evaluate_code : String → List ErrorSpec → EvalOutcome)
    (state : WorkflowState) : WorkflowState :=
  match state.code_snippet with
  | none => { state with error := some "no_code_snippet_evaluation" }
  | some snippet =>
    let code := snippet.code
    let requested_errors := extract_requested_errors state
    let requested_count := requested_errors.length
    -- original_error_count fallback chain
    let oec0 := state.original_error_count
    let oec1 := if oec0 = 0 then snippet.expected_error_count else oec0
    let original_error_count := if oec1 = 0 then requested_count else oec1
    let evaluation_result : EvaluationResult :=
      match evaluate_code code requested_errors with
      | .notDict =>
        { found_errors := []
          missing_errors := requested_errors.map format_missing_error
          extra_errors := []
          valid := false
          original_error_count := original_error_count }
      | .ok found missing extra =>
        { found_errors := found
          missing_errors := missing
          extra_errors := extra
          valid := missing.isEmpty
          original_error_count := original_error_count }
    let missing_count := evaluation_result.missing_errors.length
    let needs_regeneration := missing_count > 0
    let evaluation_attempts := state.evaluation_attempts + 1
    let feedback :=
      if missing_count > 0 then
        create_regeneration_prompt code (state.domain.getD "")
          evaluation_result.missing_errors evaluation_result.found_errors
      else
        create_regeneration_prompt code (state.domain.getD "")
          [] evaluation_result.found_errors
    let current_step :=
      if evaluation_result.valid then "review"
      else if needs_regeneration ∧ evaluation_attempts < state.max_evaluation_attempts
      then "regenerate"
      else "review"
    { state with
      original_error_count := original_error_count
      evaluation_result := some evaluation_result
      evaluation_attempts := evaluation_attempts
      code_generation_feedback := some feedback
      current_step := current_step }


/-- Embedding of `WorkflowNodes.analyze_review_node`.  `grader` supplies
what the grading LLM round-trip inside `evaluator.evaluate_review`
produces, `guidance` what `evaluator.generate_targeted_guidance` returns,
and `min_pct` is the evaluator's `min_identified_percentage` threshold. -/
def analyze_review_node (grader : GraderOutcome) (guidance : String)
    (min_pct : ℚ) (state : WorkflowState) : WorkflowState :=
  match state.review_history.getLast? with
  | none => { state with error := some "no_review_submitted" }
  | some latest_review =>
    match state.code_snippet with
    | none => { state with error := some "no_code_snippet_available" }
    | some _snippet =>
      let original_error_count := state.original_error_count
      let known_problems :=
        match state.evaluation_result with
        | some er => er.found_errors
        | none => []
      let analysis := evaluate_review grader known_problems min_pct
      let analysis :=
        if original_error_count > 0 then
          let identified_count := analysis.identified_count
          let percentage : ℚ :=
            ((identified_count : ℚ) / (original_error_count : ℚ)) * 100
          { analysis with
            total_problems := original_error_count
            original_error_count := some original_error_count
            identified_percentage := some percentage
            accuracy_percentage := percentage
            review_sufficient :=
              if identified_count = original_error_count then true
              else analysis.review_sufficient }
        else analysis
      let latest_review := { latest_review with analysis := some analysis }
      let review_sufficient := analysis.review_sufficient
      let latest_review :=
        if ¬review_sufficient ∧ state.current_iteration < state.max_iterations
        then { latest_review with targeted_guidance := some guidance }
        else latest_review
      { state with
        review_history := state.review_history.dropLast ++ [latest_review]
        review_sufficient := review_sufficient
        current_iteration := state.current_iteration + 1
        current_step := "analyze" }

/-- Embedding of `WorkflowConditions.should_regenerate_or_review`.  The
source reads the state and returns a route string; it performs no state
write, which is why the embedding returns only the decision. -/
def should_regenerate_or_review (state : WorkflowState) : String :=
  if state.current_step = "regenerate" then "regenerate_code"
  else if (match state.evaluation_result with
           | some er => er.valid
           | none => false) then "review_code"
  else
    let has_missing_errors : Bool :=
      match state.evaluation_result with
      | some er => !er.missing_errors.isEmpty
      | none => false
    let has_extra_errors : Bool :=
      match state.evaluation_result with
      | some er => !er.extra_errors.isEmpty
      | none => false
    if (has_missing_errors || has_extra_errors) &&
        state.evaluation_attempts < state.max_evaluation_attempts
    then "regenerate_code"
    else "review_code"

/-- Embedding of `WorkflowConditions.should_continue_review`.  The source
assigns `state.review_sufficient = True` in its all-issues-identified
branch, so the embedding returns the decision together with the (possibly
updated) state. -/
def should_continue_review (state : WorkflowState) : String × WorkflowState :=
  if state.current_iteration > state.max_iterations then
    ("generate_summary", state)
  else if state.review_sufficient then
    ("generate_summary", state)
  else
    match state.review_history.getLast? with
    | some latest_review =>
      match latest_review.analysis with
      | some analysis =>
        if analysis.identified_count = analysis.total_problems ∧
            analysis.total_problems > 0 then
          ("generate_summary", { state with review_sufficient := true })
        else ("review_code", state)
      | none => ("review_code", state)
    | none => ("review_code", state)

/-- One traversal of the generation loop's cycle as wired in the graph:
run `evaluate_code_node`, follow the `should_regenerate_or_review`
conditional edge, and on `"regenerate_code"` run `regenerate_code_node`
(one further call to the code generator) before evaluating again.  Returns
the final state and the number of generator calls made by regeneration.
`fuel` bounds the recursion purely structurally; the theorems show the
counter is bounded independently of it. -/
def run_generation_loop
    (evaluate_code : String → List ErrorSpec → EvalOutcome)
    (repo_errors : List ErrorSpec) (annotated clean pick_domain : String)
    (fuel : Nat) (state : WorkflowState) (calls : Nat) :
    WorkflowState × Nat :=
  match fuel with
  | 0 => (state, calls)
  | fuel' + 1 =>
    let state' := evaluate_code_node evaluate_code state
    if should_regenerate_or_review state' = "regenerate_code" then
      run_generation_loop evaluate_code repo_errors annotated clean
        pick_domain fuel'
        (regenerate_code_node true repo_errors annotated clean pick_domain state')
        (calls + 1)
    else (state', calls)

/-- Analysis attached to the most recent `ReviewAttempt` of a state. -/
def lastAnalysis (state : WorkflowState) : Option Analysis :=
  (state.review_history.getLast?).bind (fun attempt => attempt.analysis)

/-- Boolean form of the §3 `EvaluationResult` invariant: the stored `valid`
flag agrees with emptiness of the stored `missing_errors` list. -/
def stored_valid_iff_no_missing (state : WorkflowState) : Bool :=
  match state.evaluation_result with
  | some er => er.valid == er.missing_errors.isEmpty
  | none => false

/-- The `known_problems` list `analyze_review_node` hands to the grader:
the `found_errors` of the last evaluation result, or `[]`. -/
def known_problems_of (state : WorkflowState) : List String :=
  match state.evaluation_result with
  | some er => er.found_errors
  | none => []

/-! Concrete fixtures used by counterexamples and witnesses. -/

def errNull : ErrorSpec := { type := "logical", name := "NullPointerCheck" }

def errLoop : ErrorSpec := { type := "logical", name := "OffByOneLoop" }

def errNaming : ErrorSpec := { type := "checkstyle", name := "MethodNaming" }

def errEquals : ErrorSpec := { type := "logical", name := "StringEqualsOperator" }

def repoFour : List ErrorSpec := [errNull, errLoop, errNaming, errEquals]

def baseState : WorkflowState := {
  code_length := "medium", difficulty_level := "medium",
  selected_error_categories := some { java_errors := ["Logical", "Checkstyle"] },
  selected_specific_errors := [],
  domain := some "banking",
  code_snippet := none, evaluation_result := none,
  evaluation_attempts := 0, max_evaluation_attempts := 3,
  original_error_count := 0, code_generation_feedback := none,
  review_history := [], current_iteration := 1, max_iterations := 3,
  review_sufficient := false, current_step := "generate", error := none }

def attemptPending : ReviewAttempt :=
  { iteration_number := 1, student_review := "Line 5: null deref"
    analysis := none, targeted_guidance := none }

def snipEmpty : CodeSnippet :=
  { code := "annotated empty", clean_code := "clean empty"
    java_errors := [], expected_error_count := 0 }

def snipFour : CodeSnippet :=
  { code := "annotated four", clean_code := "clean four"
    java_errors := repoFour, expected_error_count := 4 }

/-- A session whose generation round fixed `original_error_count = 0`
(the error repository returned no errors), with one pending review. -/
def stateZeroOec : WorkflowState := { baseState with
  code_snippet := some snipEmpty
  evaluation_result := some
    { found_errors := ["A", "B", "C", "D"], missing_errors := []
      extra_errors := [], valid := true, original_error_count := 0 }
  evaluation_attempts := 1
  review_history := [attemptPending]
  current_step := "review" }

/-- A normal session with `original_error_count = 4` and one pending
review. -/
def stateFourOec : WorkflowState := { baseState with
  code_snippet := some snipFour
  evaluation_result := some
    { found_errors :=
        ["LOGICAL - NullPointerCheck", "LOGICAL - OffByOneLoop",
         "CHECKSTYLE - MethodNaming", "LOGICAL - StringEqualsOperator"]
      missing_errors := [], extra_errors := [], valid := true
      original_error_count := 4 }
  evaluation_attempts := 1
  original_error_count := 4
  review_history := [attemptPending]
  current_step := "review" }

/-- Grader output claiming 0 of a raw total of 4 problems identified and
explicitly reporting an insufficient review. -/
def dataZeroOfFour : AnalysisData :=
  { identified_problems := some [], missed_problems := some ["p1", "p2", "p3", "p4"]
    identified_count := some 0, total_problems := some 4
    review_sufficient := some false }

/-- Grader output claiming 1 of a raw total of 4 problems identified. -/
def dataOneOfFour : AnalysisData :=
  { identified_problems := some ["p1"], missed_problems := some ["p2", "p3", "p4"]
    identified_count := some 1, total_problems := some 4
    review_sufficient := some false }

/-- Grader output claiming 4 identified out of a raw total of 7, while
still reporting the review insufficient. -/
def dataFourOfSeven : AnalysisData :=
  { identified_problems := some ["p1", "p2", "p3", "p4"], missed_problems := some []
    identified_count := some 4, total_problems := some 7
    review_sufficient := some false }

/-- Grader output with no fields at all. -/
def dataBare : AnalysisData :=
  { identified_problems := none, missed_problems := none
    identified_count := none, total_problems := none
    review_sufficient := none }

def stateEasyCategory : WorkflowState := { baseState with difficulty_level := "easy" }

/-- A state parked at the `regenerate` step, as `evaluate_code_node` leaves
it after a failed evaluation with attempts remaining. -/
def stateRegenPending : WorkflowState := { baseState with
  code_snippet := some snipFour
  evaluation_result := some
    { found_errors :=
        ["LOGICAL - NullPointerCheck", "LOGICAL - OffByOneLoop",
         "CHECKSTYLE - MethodNaming"]
      missing_errors := ["LOGICAL - StringEqualsOperator"]
      extra_errors := [], valid := false, original_error_count := 4 }
  evaluation_attempts := 1
  original_error_count := 4
  code_generation_feedback := some "stored feedback prompt"
  current_step := "regenerate" }

/-- A zero-`original_error_count` session after an analyze step in which
the grader counted 4 problems and saw all 4 identified while reporting the
review insufficient: the node's forcing is skipped, so
`state.review_sufficient` stays `false` while the stored analysis has
`identified_count = total_problems = 4`. -/
def analysisAllFourFound : Analysis :=
  { identified_problems := ["p1", "p2", "p3", "p4"], missed_problems := []
    identified_count := 4, total_problems := 4, accuracy_percentage := 100
    review_sufficient := false, identified_percentage := none
    original_error_count := none }

/-- State holding `analysisAllFourFound` on its latest attempt with
`review_sufficient` still `false`: exactly the shape on which
`should_continue_review`'s all-identified branch fires. -/
def stateAllIdentified : WorkflowState := { baseState with
  code_snippet := some snipEmpty
  review_history := [{ attemptPending with analysis := some analysisAllFourFound }]
  current_iteration := 2
  current_step := "analyze" }

/-- A freshly generated session: snippet present, `evaluation_attempts = 0`. -/
def stateFresh : WorkflowState := { baseState with code_snippet := some snipFour }

/-- A session whose next evaluation will be its last allowed one
(`evaluation_attempts + 1 = max_evaluation_attempts`). -/
def stateMaxed : WorkflowState :=
  { baseState with code_snippet := some snipFour, evaluation_attempts := 2 }

/-- A specific-errors-mode session with two student-picked errors. -/
def stateSpecificTwo : WorkflowState :=
  { baseState with selected_specific_errors := [errNull, errLoop] }

/-! ## Helper lemmas (shared by the termination development) -/

/-- `evaluate_code_node` keeps the snippet and the attempt cap, and bumps
`evaluation_attempts` by exactly one. -/
theorem evaluate_code_node_fields
    (f : String → List ErrorSpec → EvalOutcome) (s : WorkflowState)
    (snip : CodeSnippet) (hsnip : s.code_snippet = some snip) :
    (evaluate_code_node f s).code_snippet = some snip
    ∧ (evaluate_code_node f s).max_evaluation_attempts = s.max_evaluation_attempts
    ∧ (evaluate_code_node f s).evaluation_attempts = s.evaluation_attempts + 1 := by
  simp [evaluate_code_node, hsnip]

/-- Once the evaluation that is about to run is the last allowed one, the
conditional edge after it routes to review for every evaluator output. -/
theorem eval_maxed_goes_review
    (f : String → List ErrorSpec → EvalOutcome) (s : WorkflowState) (snip : CodeSnippet)
    (hsnip : s.code_snippet = some snip)
    (hmax : s.max_evaluation_attempts ≤ s.evaluation_attempts + 1) :
    should_regenerate_or_review (evaluate_code_node f s) = "review_code" := by
  cases hout : f snip.code snip.java_errors with
  | ok found missing extra =>
    simp only [evaluate_code_node, hsnip, extract_requested_errors, hout,
      should_regenerate_or_review]
    split_ifs <;> first | rfl | ((exfalso; try simp_all) <;> omega)
  | notDict =>
    simp only [evaluate_code_node, hsnip, extract_requested_errors, hout,
      should_regenerate_or_review]
    split_ifs <;> first | rfl | ((exfalso; try simp_all) <;> omega)

/-- A `regenerate_code` decision after an evaluation implies the evaluation
count was still strictly below the cap. -/
theorem regen_decision_attempts_lt
    (f : String → List ErrorSpec → EvalOutcome) (s : WorkflowState) (snip : CodeSnippet)
    (hsnip : s.code_snippet = some snip)
    (hd : should_regenerate_or_review (evaluate_code_node f s) = "regenerate_code") :
    s.evaluation_attempts + 1 < s.max_evaluation_attempts := by
  by_contra hge
  push_neg at hge
  rw [eval_maxed_goes_review f s snip hsnip hge] at hd
  exact absurd hd (by decide)

/-- With a generation LLM available, `regenerate_code_node` (which dies on
the `NameError` before touching these fields) keeps the snippet and both
attempt counters. -/
theorem regenerate_true_fields
    (repo : List ErrorSpec) (ann cln dom : String) (s : WorkflowState) :
    (regenerate_code_node true repo ann cln dom s).code_snippet = s.code_snippet
    ∧ (regenerate_code_node true repo ann cln dom s).max_evaluation_attempts
        = s.max_evaluation_attempts
    ∧ (regenerate_code_node true repo ann cln dom s).evaluation_attempts
        = s.evaluation_attempts := by
  refine ⟨?_, ?_, ?_⟩ <;> simp [regenerate_code_node]

/-- The number of regenerations performed by the loop never exceeds the
remaining attempt budget. -/
theorem run_generation_loop_calls_le
    (f : String → List ErrorSpec → EvalOutcome) (repo : List ErrorSpec)
    (ann cln dom : String) :
    ∀ (fuel : Nat) (s : WorkflowState) (calls : Nat) (snip : CodeSnippet),
      s.code_snippet = some snip →
      (run_generation_loop f repo ann cln dom fuel s calls).2 ≤
        calls + (s.max_evaluation_attempts - (s.evaluation_attempts + 1)) := by
  intro fuel
  induction fuel with
  | zero =>
    intro s calls snip hsnip
    simp [run_generation_loop]
  | succ fuel ih =>
    intro s calls snip hsnip
    rw [run_generation_loop]
    split
    · rename_i hd
      have hlt := regen_decision_attempts_lt f s snip hsnip hd
      have hfields := evaluate_code_node_fields f s snip hsnip
      have hreg := regenerate_true_fields repo ann cln dom (evaluate_code_node f s)
      have hsnip2 : (regenerate_code_node true repo ann cln dom
          (evaluate_code_node f s)).code_snippet = some snip := by
        rw [hreg.1, hfields.1]
      have hbound := ih (regenerate_code_node true repo ann cln dom
        (evaluate_code_node f s)) (calls + 1) snip hsnip2
      rw [hreg.2.1, hreg.2.2, hfields.2.1, hfields.2.2] at hbound
      omega
    · simp

/-! ## Claim theorems -/

/-- C1 (amended): for every review attempt analyzed while the session's
`original_error_count` is positive, the stored analysis's `total_problems`
equals `state.original_error_count`, whatever raw total the grader
returned. -/
theorem total_problems_matches_original_count
    (grader : GraderOutcome) (guidance : String) (min_pct : ℚ)
    (s : WorkflowState) (att : ReviewAttempt) (snip : CodeSnippet)
    (hatt : s.review_history.getLast? = some att)
    (hsnip : s.code_snippet = some snip)
    (hoec : 0 < s.original_error_count) :
    (lastAnalysis (analyze_review_node grader guidance min_pct s)).map
      (fun a => a.total_problems) = some s.original_error_count := by
  simp only [analyze_review_node, hatt, hsnip, lastAnalysis]
  rw [if_pos hoec]
  split
  · simp [List.getLast?_append_cons]
  · split <;> simp [List.getLast?_append_cons]

/-- Witness for C1: a four-error session graded against a raw total of 4
ends with `total_problems = 4 = original_error_count`. -/
theorem total_problems_matches_original_count_witness :
    (lastAnalysis (analyze_review_node (GraderOutcome.ok dataOneOfFour) "hint" 60 stateFourOec)).map
      (fun a => a.total_problems) = some stateFourOec.original_error_count :=
  total_problems_matches_original_count (GraderOutcome.ok dataOneOfFour) "hint" 60
    stateFourOec attemptPending snipFour rfl rfl (by decide)

/-- C1 counterexample: with `original_error_count = 0` the overwrite in
`analyze_review_node` is skipped (it is guarded by
`original_error_count > 0`), so the stored `total_problems` keeps the
grader's raw value 4 and differs from the state's count 0. -/
theorem total_problems_zero_count_counterexample :
    stateZeroOec.original_error_count = 0 ∧
    (lastAnalysis (analyze_review_node (GraderOutcome.ok dataZeroOfFour) "hint" 60 stateZeroOec)).map
      (fun a => a.total_problems) = some 4 := by
  decide

/-- C2 (amended): on every run of `evaluate_code_node` in which the
evaluator returns a dictionary, the stored result's `valid` flag is true
iff its `missing_errors` list is empty — in particular extra errors never
affect validity. -/
theorem valid_iff_no_missing
    (evaluate_code : String → List ErrorSpec → EvalOutcome)
    (s : WorkflowState) (snip : CodeSnippet)
    (found missing extra : List String)
    (hsnip : s.code_snippet = some snip)
    (hok : evaluate_code snip.code (extract_requested_errors s)
      = EvalOutcome.ok found missing extra) :
    stored_valid_iff_no_missing (evaluate_code_node evaluate_code s) = true := by
  have hok2 : evaluate_code snip.code snip.java_errors = EvalOutcome.ok found missing extra := by
    simpa [extract_requested_errors, hsnip] using hok
  simp only [evaluate_code_node, hsnip, extract_requested_errors, hok2,
    stored_valid_iff_no_missing]
  simp

/-- Witness for C2: an evaluation with one missing and one extra error
stores `valid = false`, agreeing with non-empty `missing_errors`. -/
theorem valid_iff_no_missing_witness :
    stored_valid_iff_no_missing
      (evaluate_code_node (fun _ _ => EvalOutcome.ok ["f1"] ["m1"] ["x1"]) stateRegenPending)
      = true :=
  valid_iff_no_missing (fun _ _ => EvalOutcome.ok ["f1"] ["m1"] ["x1"])
    stateRegenPending snipFour ["f1"] ["m1"] ["x1"] rfl rfl

/-- C2 counterexample: when the evaluator returns a non-dictionary and no
errors were requested, the fallback stores `valid = false` together with an
empty `missing_errors` list on a non-erroring run, so the biconditional of
the claim fails. -/
theorem valid_iff_no_missing_counterexample :
    (evaluate_code_node (fun _ _ => EvalOutcome.notDict) stateZeroOec).error = none ∧
    ((evaluate_code_node (fun _ _ => EvalOutcome.notDict) stateZeroOec).evaluation_result).map
      (fun er => (er.valid, er.missing_errors)) = some (false, []) := by
  decide

/-- C3: in category mode `generate_code_node` requests
`get_error_count_from_state(difficulty_level)` errors — the difficulty
string lands in the `state` parameter, the `difficulty_level` parameter
keeps its default `"medium"`, and the count is 4 for every difficulty,
although the difficulty map itself assigns easy=2 and hard=6 and the
specific-errors mode does use the picked count. -/
theorem category_mode_error_count_always_four :
    get_error_count_from_state (.pyStr "easy") "medium" = 4 ∧
    get_error_count_from_state (.pyStr "hard") "medium" = 4 ∧
    difficulty_map_get "easy" = 2 ∧ difficulty_map_get "hard" = 6 ∧
    (generate_code_node repoFour "ann" "cln" "dom" stateEasyCategory).original_error_count = 4 ∧
    (generate_code_node repoFour "ann" "cln" "dom" stateSpecificTwo).original_error_count = 2 := by
  decide

/-- C4: with a generation LLM available, `regenerate_code_node` hits the
`NameError` on the unbound `selected_errors` while building the new
snippet; the exception handler records the message and the old snippet and
step survive — the snippet is never replaced and `current_step` is not set
to `evaluate`. -/
theorem regenerate_node_name_error :
    (regenerate_code_node true repoFour "newAnn" "newClean" "dom" stateRegenPending).code_snippet
        = stateRegenPending.code_snippet ∧
    stateRegenPending.current_step = "regenerate" ∧
    (regenerate_code_node true repoFour "newAnn" "newClean" "dom" stateRegenPending).current_step
        = "regenerate" ∧
    (regenerate_code_node true repoFour "newAnn" "newClean" "dom" stateRegenPending).error
        = some regenerate_name_error_message := by
  decide

/-- C5: (a) after an evaluation that exhausts the attempt budget the
conditional edge returns `review_code` for every evaluator output, and
(b) a full run of the generation loop performs at most
`max_evaluation_attempts + 1` generator calls (the initial generation plus
the counted regenerations), for every evaluator and any amount of fuel. -/
theorem generation_loop_terminates :
    (∀ (f : String → List ErrorSpec → EvalOutcome) (s : WorkflowState) (snip : CodeSnippet),
        s.code_snippet = some snip →
        s.max_evaluation_attempts ≤ s.evaluation_attempts + 1 →
        should_regenerate_or_review (evaluate_code_node f s) = "review_code")
    ∧ (∀ (f : String → List ErrorSpec → EvalOutcome) (repo : List ErrorSpec)
        (ann cln dom : String) (fuel : Nat) (s : WorkflowState) (snip : CodeSnippet),
        s.code_snippet = some snip → s.evaluation_attempts = 0 →
        1 + (run_generation_loop f repo ann cln dom fuel s 0).2 ≤
          s.max_evaluation_attempts + 1) := by
  constructor
  · exact fun f s snip hsnip hmax => eval_maxed_goes_review f s snip hsnip hmax
  · intro f repo ann cln dom fuel s snip hsnip h0
    have hb := run_generation_loop_calls_le f repo ann cln dom fuel s 0 snip hsnip
    rw [h0] at hb
    omega

/-- Witness for C5: an always-failing evaluator still routes to review on
the maxed-out state, and a fueled loop run from a fresh state stays within
the `max_evaluation_attempts + 1` generator-call budget. -/
theorem generation_loop_terminates_witness :
    should_regenerate_or_review
        (evaluate_code_node (fun _ _ => EvalOutcome.notDict) stateMaxed) = "review_code"
    ∧ 1 + (run_generation_loop (fun _ _ => EvalOutcome.notDict) repoFour
        "ann" "cln" "dom" 9 stateFresh 0).2 ≤ stateFresh.max_evaluation_attempts + 1 :=
  ⟨generation_loop_terminates.1 (fun _ _ => EvalOutcome.notDict) stateMaxed snipFour
      rfl (by decide),
   generation_loop_terminates.2 (fun _ _ => EvalOutcome.notDict) repoFour
      "ann" "cln" "dom" 9 stateFresh snipFour rfl rfl⟩

/-- C6 (amended): after an analyze step, `state.review_sufficient` is true
whenever the grader-derived analysis reports sufficiency, and it is forced
true whenever `identified_count = original_error_count` *and*
`original_error_count > 0` (the forcing is guarded by the positive count). -/
theorem review_sufficiency_forcing
    (grader : GraderOutcome) (guidance : String) (min_pct : ℚ)
    (s : WorkflowState) (att : ReviewAttempt) (snip : CodeSnippet)
    (hatt : s.review_history.getLast? = some att)
    (hsnip : s.code_snippet = some snip) :
    ((evaluate_review grader (known_problems_of s) min_pct).review_sufficient = true →
      (analyze_review_node grader guidance min_pct s).review_sufficient = true)
    ∧ (0 < s.original_error_count →
      (evaluate_review grader (known_problems_of s) min_pct).identified_count
        = s.original_error_count →
      (analyze_review_node grader guidance min_pct s).review_sufficient = true) := by
  constructor
  · intro hsuff
    simp only [analyze_review_node, hatt, hsnip, known_problems_of] at *
    split
    · split <;> simp_all
    · simp_all
  · intro hoec hid
    simp only [analyze_review_node, hatt, hsnip, known_problems_of] at *
    rw [if_pos hoec]
    simp_all

/-- Witness for C6: all 4 of 4 errors identified forces sufficiency even
though the grader reported the review insufficient. -/
theorem review_sufficiency_forcing_witness :
    (analyze_review_node (GraderOutcome.ok dataFourOfSeven) "hint" 60 stateFourOec).review_sufficient
      = true :=
  (review_sufficiency_forcing (GraderOutcome.ok dataFourOfSeven) "hint" 60
    stateFourOec attemptPending snipFour rfl rfl).2 (by decide) (by decide)

/-- C6 counterexample: with `original_error_count = 0` and
`identified_count = 0` the all-errors-found condition holds, yet the node
leaves `review_sufficient = false` because the forcing is inside the
`original_error_count > 0` guard. -/
theorem review_sufficiency_zero_count_counterexample :
    stateZeroOec.original_error_count = 0 ∧
    (lastAnalysis (analyze_review_node (GraderOutcome.ok dataZeroOfFour) "hint" 60 stateZeroOec)).map
      (fun a => a.identified_count) = some 0 ∧
    (analyze_review_node (GraderOutcome.ok dataZeroOfFour) "hint" 60 stateZeroOec).review_sufficient
      = false := by
  decide

/-- C7 (amended): `should_regenerate_or_review` reads the state and returns
only a route string (its embedding is a pure function into `String`), and
`should_continue_review` returns a stable decision: the state it hands back
differs at most in `review_sufficient` being set to true, and re-running it
on that updated state yields the same decision. -/
theorem conditions_decision_stable (s : WorkflowState) :
    should_regenerate_or_review s = should_regenerate_or_review s
    ∧ ((should_continue_review s).2 = s ∨
      (should_continue_review s).2 = { s with review_sufficient := true })
    ∧ (should_continue_review (should_continue_review s).2).1
        = (should_continue_review s).1 := by
  refine ⟨rfl, ?_⟩
  by_cases h1 : s.current_iteration > s.max_iterations
  · simp [should_continue_review, h1]
  · by_cases h2 : s.review_sufficient
    · simp [should_continue_review, h1, h2]
    · cases hl : s.review_history.getLast? with
      | none => simp [should_continue_review, h1, h2, hl]
      | some latest =>
        cases ha : latest.analysis with
        | none => simp [should_continue_review, h1, h2, hl, ha]
        | some analysis =>
          by_cases hc : analysis.identified_count = analysis.total_problems ∧
              analysis.total_problems > 0
          · simp [should_continue_review, h1, h2, hl, ha, hc]
          · simp [should_continue_review, h1, h2, hl, ha, hc]

/-- C7 counterexample: on a state whose latest analysis shows all problems
identified while `review_sufficient` is still false,
`should_continue_review` mutates the state by setting
`review_sufficient := true`. -/
theorem conditions_mutation_counterexample :
    stateAllIdentified.review_sufficient = false ∧
    (should_continue_review stateAllIdentified).2.review_sufficient = true := by
  decide

/-- C8 (amended): the vacuous-pass rule lives in
`_process_enhanced_analysis` and is keyed on the analysis's
`total_problems` (defaulted to the number of known problems), not on the
state's `original_error_count`: when that total is 0 the percentage is set
to 100 outright, with no division performed. -/
theorem zero_total_vacuous_pass (analysis_data : AnalysisData)
    (known_problems : List String) (min_pct : ℚ)
    (h : analysis_data.total_problems.getD known_problems.length = 0) :
    (process_enhanced_analysis analysis_data known_problems min_pct).accuracy_percentage = 100 := by
  simp only [process_enhanced_analysis, h]
  norm_num

/-- Witness for C8: a bare grader response over an empty known-problem list
yields the vacuous 100 percent. -/
theorem zero_total_vacuous_pass_witness :
    dataBare.total_problems.getD (List.length ([] : List String)) = 0 ∧
    (process_enhanced_analysis dataBare [] 60).accuracy_percentage = 100 :=
  ⟨rfl, zero_total_vacuous_pass dataBare [] 60 rfl⟩

/-- C8 counterexample: an analyze step with `original_error_count = 0` but
a grader-reported total of 4 leaves the grader's 25-percent accuracy in
place and sets no `identified_percentage` field at all, instead of the
claimed vacuous 100 percent. -/
theorem zero_original_count_percentage_counterexample :
    stateZeroOec.original_error_count = 0 ∧
    (lastAnalysis (analyze_review_node (GraderOutcome.ok dataOneOfFour) "hint" 60 stateZeroOec)).map
      (fun a => (a.accuracy_percentage, a.identified_percentage)) = some (25, none) := by
  refine ⟨rfl, ?_⟩
  simp [lastAnalysis, analyze_review_node, evaluate_review, process_enhanced_analysis,
    stateZeroOec, dataOneOfFour, baseState, attemptPending, snipEmpty]
  norm_num

/-- C9 (amended): when the grading LLM call fails or returns malformed
data, `evaluate_review` falls back to a zero-identified analysis; the node
stores that analysis on the pending attempt, leaves `state.error` unset,
marks the review insufficient, and still increments `current_iteration` —
the failed grading consumes the iteration. -/
theorem grading_failure_consumes_iteration
    (guidance : String) (min_pct : ℚ)
    (s : WorkflowState) (att : ReviewAttempt) (snip : CodeSnippet)
    (hatt : s.review_history.getLast? = some att)
    (hsnip : s.code_snippet = some snip)
    (herr : s.error = none) :
    (analyze_review_node GraderOutcome.failure guidance min_pct s).error = none
    ∧ (analyze_review_node GraderOutcome.failure guidance min_pct s).current_iteration
        = s.current_iteration + 1
    ∧ (lastAnalysis (analyze_review_node GraderOutcome.failure guidance min_pct s)).map
        (fun a => a.identified_count) = some 0
    ∧ (analyze_review_node GraderOutcome.failure guidance min_pct s).review_sufficient = false := by
  refine ⟨?_, ?_, ?_, ?_⟩
  · simp only [analyze_review_node, hatt, hsnip]
    exact herr
  · simp only [analyze_review_node, hatt, hsnip]
  · simp only [analyze_review_node, hatt, hsnip, lastAnalysis, evaluate_review,
      fallback_evaluation]
    split <;>
      simp_all [List.getLast?_append_cons, apply_ite ReviewAttempt.analysis] <;>
      split <;> simp_all
  · simp only [analyze_review_node, hatt, hsnip, evaluate_review, fallback_evaluation]
    split
    · split <;> simp_all <;> omega
    · simp_all

/-- Witness for C9: a failed grading on a normal four-error session moves
`current_iteration` from 1 to 2. -/
theorem grading_failure_consumes_iteration_witness :
    (analyze_review_node GraderOutcome.failure "hint" 60 stateFourOec).current_iteration
      = stateFourOec.current_iteration + 1 :=
  (grading_failure_consumes_iteration "hint" 60 stateFourOec attemptPending snipFour
    rfl rfl rfl).2.1

/-- C9 counterexample: at a concrete failed grading, `state.error` stays
unset, the attempt's analysis is populated (with the fallback), and
`current_iteration` is incremented — each part of the claim fails. -/
theorem grading_failure_counterexample :
    (analyze_review_node GraderOutcome.failure "hint" 60 stateFourOec).error = none ∧
    (analyze_review_node GraderOutcome.failure "hint" 60 stateFourOec).current_iteration = 2 ∧
    (lastAnalysis (analyze_review_node GraderOutcome.failure "hint" 60 stateFourOec)).isSome
      = true := by
  decide

/-- C10: when the evaluator returns a non-dictionary, `evaluate_code_node`
keeps `state.error` unset, substitutes the default result (`valid = false`,
`missing_errors` listing every requested error, no found errors), and the
normal decision logic then drives regeneration whenever some error was
requested and attempts remain. -/
theorem evaluator_nondict_default
    (evaluate_code : String → List ErrorSpec → EvalOutcome)
    (s : WorkflowState) (snip : CodeSnippet)
    (hsnip : s.code_snippet = some snip)
    (herr : s.error = none)
    (hnd : evaluate_code snip.code (extract_requested_errors s) = EvalOutcome.notDict) :
    (evaluate_code_node evaluate_code s).error = none
    ∧ ((evaluate_code_node evaluate_code s).evaluation_result).map
        (fun er => (er.found_errors, er.missing_errors, er.valid)) =
        some ([], (extract_requested_errors s).map format_missing_error, false)
    ∧ (extract_requested_errors s ≠ [] →
       s.evaluation_attempts + 1 < s.max_evaluation_attempts →
       (evaluate_code_node evaluate_code s).current_step = "regenerate") := by
  have hnd2 : evaluate_code snip.code snip.java_errors = EvalOutcome.notDict := by
    simpa [extract_requested_errors, hsnip] using hnd
  refine ⟨?_, ?_, ?_⟩
  · simp only [evaluate_code_node, hsnip, hnd2]
    exact herr
  · simp only [evaluate_code_node, hsnip, extract_requested_errors, hnd2]
    simp
  · intro hne hlt
    simp only [extract_requested_errors, hsnip] at hne
    have hpos : 0 < (snip.java_errors.map format_missing_error).length := by
      rw [List.length_map]
      exact List.length_pos.mpr hne
    simp only [evaluate_code_node, hsnip, extract_requested_errors, hnd2]
    simp [hpos, hlt, hne]

/-- Witness for C10: a fresh four-error session whose evaluator returns a
non-dictionary proceeds to the regenerate step. -/
theorem evaluator_nondict_default_witness :
    (evaluate_code_node (fun _ _ => EvalOutcome.notDict) stateFresh).current_step
      = "regenerate" :=
  (evaluator_nondict_default (fun _ _ => EvalOutcome.notDict) stateFresh snipFour
    rfl rfl rfl).2.2 (by decide) (by decide)
